import Mathlib

/-!
Shallow embedding of `go/relay/prover.go` from the lcp repository: the
verification-delegation `Prover` that forwards origin-chain proofs to a
remote LCP service and repackages the returned signed commitments.

External collaborators (the gRPC service, the origin prover, the protobuf
packers and the lcp commitment codec, which live outside the source slice)
are modelled as oracle functions collected in an `Env` record. Each
operation is translated from the Go source as a function of the `Env` and
the `Prover` session state, returning its result, the list of remote
service calls it performed (in order), and the session state after the
call.
-/

deriving instance DecidableEq for Except

namespace LCPRelay

/-- Errors are abstract messages, mirroring Go `error` values. -/
abbrev Err := String

/-- Raw byte strings (protobuf `Any` payloads, proofs, commitments). -/
abbrev Bytes := List Nat

/-- An opaque origin-chain header (`core.Header`). -/
abbrev Header := Bytes

/-- A transaction signer account address rendered as a string
(`sdk.AccAddress`; the code only uses `signer.String()`). -/
abbrev Signer := String

/-- `clienttypes.Height`. -/
structure Height where
  revisionNumber : Nat
  revisionHeight : Nat
deriving DecidableEq, Repr

/-- `core.PathEnd`: the path identifiers read by the prover. -/
structure PathEnd where
  clientID : String
  connectionID : String
  channelID : String
  portID : String
deriving DecidableEq, Repr

/-- `ProverConfig`: the fields of the prover configuration read by
`prover.go` (service address, bound ELC client id, enclave measurement,
allowed quote statuses and advisory ids). -/
structure ProverConfig where
  lcpServiceAddress : String
  elcClientId : String
  mrenclave : Bytes
  allowedQuoteStatuses : List String
  allowedAdvisoryIds : List String
deriving DecidableEq, Repr

/-- `ProverConfig.GetMrenclave`: returns the configured enclave
measurement (the hex decoding done by the config module outside the
source slice is absorbed into the `mrenclave` field). -/
def ProverConfig.getMrenclave (c : ProverConfig) : Bytes := c.mrenclave

/-- A gRPC connection handle (`grpc.Dial` result), identified by its
target address. -/
structure GrpcConn where
  target : String
deriving DecidableEq, Repr

/-- An opaque codec handle (`codec.ProtoCodecMarshaler`). -/
structure Codec where
  id : Nat
deriving DecidableEq, Repr

/-- `LCPServiceClient`: constructed by `NewLCPServiceClient(conn, codec)`. -/
structure LCPServiceClient where
  conn : GrpcConn
  codec : Codec
deriving DecidableEq, Repr

/-- The `Prover` session state. `originChainId` and `originProverId` are
opaque handles for the `originChain` and `originProver` fields, whose
behaviour lives in the environment. -/
structure Prover where
  config : ProverConfig
  originChainId : String
  originProverId : Nat
  codec : Codec
  path : PathEnd
  lcpServiceClient : Option LCPServiceClient
deriving DecidableEq, Repr

/-- `clienttypes.MsgCreateClient` and `elc.MsgCreateClient`: packed
client state, packed consensus state and a signer string. -/
structure MsgCreateClient where
  clientState : Bytes
  consensusState : Bytes
  signer : String
deriving DecidableEq, Repr

/-- The remote service response to `CreateClient`; the code reads only
its `ClientId` field. -/
structure MsgCreateClientResponse where
  clientId : String
deriving DecidableEq, Repr

/-- `elc.MsgUpdateClient`: bound client id plus the packed header. -/
structure ElcMsgUpdateClient where
  clientId : String
  header : Bytes
deriving DecidableEq, Repr

/-- The remote service response to `UpdateClient`: commitment bytes,
signer address bytes, and signature. -/
structure MsgUpdateClientResponse where
  commitment : Bytes
  signer : Bytes
  signature : Bytes
deriving DecidableEq, Repr

/-- `lcptypes.UpdateClientHeader`: the destination-chain header built
from an update response. -/
structure UpdateClientHeader where
  commitment : Bytes
  signer : Bytes
  signature : Bytes
deriving DecidableEq, Repr

/-- `ibc.MsgVerifyClient`. The Go field `Prefix` is rendered here as
`prefixBytes`. -/
structure MsgVerifyClient where
  clientId : String
  prefixBytes : Bytes
  counterpartyClientId : String
  expectedAnyClientState : Bytes
  proofHeight : Height
  proof : Bytes
deriving DecidableEq, Repr

/-- `ibc.MsgVerifyClientConsensus`. -/
structure MsgVerifyClientConsensus where
  clientId : String
  prefixBytes : Bytes
  counterpartyClientId : String
  consensusHeight : Height
  expectedAnyClientConsensusState : Bytes
  proofHeight : Height
  proof : Bytes
deriving DecidableEq, Repr

/-- `ibc.MsgVerifyConnection`. -/
structure MsgVerifyConnection where
  clientId : String
  prefixBytes : Bytes
  connectionId : String
  expectedConnection : Bytes
  proofHeight : Height
  proof : Bytes
deriving DecidableEq, Repr

/-- `ibc.MsgVerifyChannel`. -/
structure MsgVerifyChannel where
  clientId : String
  prefixBytes : Bytes
  portId : String
  channelId : String
  expectedChannel : Bytes
  proofHeight : Height
  proof : Bytes
deriving DecidableEq, Repr

/-- `ibc.MsgVerifyPacket`. -/
structure MsgVerifyPacket where
  clientId : String
  prefixBytes : Bytes
  portId : String
  channelId : String
  sequence : Nat
  commitment : Bytes
  proofHeight : Height
  proof : Bytes
deriving DecidableEq, Repr

/-- `ibc.MsgVerifyPacketAcknowledgement`. -/
structure MsgVerifyPacketAcknowledgement where
  clientId : String
  prefixBytes : Bytes
  portId : String
  channelId : String
  sequence : Nat
  commitment : Bytes
  proofHeight : Height
  proof : Bytes
deriving DecidableEq, Repr

/-- The remote service response to any of the six `Verify` calls:
commitment bytes, signer address bytes, signature. -/
structure MsgVerifyResponse where
  commitment : Bytes
  signer : Bytes
  signature : Bytes
deriving DecidableEq, Repr

/-- `clienttypes.QueryClientStateResponse`. -/
structure QueryClientStateResponse where
  clientState : Bytes
  proof : Bytes
  proofHeight : Height
deriving DecidableEq, Repr

/-- `clienttypes.QueryConsensusStateResponse`. -/
structure QueryConsensusStateResponse where
  consensusState : Bytes
  proof : Bytes
  proofHeight : Height
deriving DecidableEq, Repr

/-- `conntypes.QueryConnectionResponse`. -/
structure QueryConnectionResponse where
  connection : Bytes
  proof : Bytes
  proofHeight : Height
deriving DecidableEq, Repr

/-- `chantypes.QueryChannelResponse`. -/
structure QueryChannelResponse where
  channel : Bytes
  proof : Bytes
  proofHeight : Height
deriving DecidableEq, Repr

/-- `chantypes.QueryPacketCommitmentResponse`. -/
structure QueryPacketCommitmentResponse where
  commitment : Bytes
  proof : Bytes
  proofHeight : Height
deriving DecidableEq, Repr

/-- `chantypes.QueryPacketAcknowledgementResponse`. -/
structure QueryPacketAcknowledgementResponse where
  acknowledgement : Bytes
  proof : Bytes
  proofHeight : Height
deriving DecidableEq, Repr

/-- `lcptypes.ClientState`: the destination-chain client state built by
`CreateMsgCreateClient`. -/
structure LCPClientState where
  latestHeight : Height
  mrenclave : Bytes
  keyExpiration : Nat
  keys : List Bytes
  attestationTimes : List Nat
  allowedQuoteStatuses : List String
  allowedAdvisoryIds : List String
deriving DecidableEq, Repr

/-- `lcptypes.ConsensusState`: constructed empty by the code. -/
structure LCPConsensusState where
deriving DecidableEq, Repr

/-- The result of `lcptypes.ParseStateCommitment`; the code reads only
its `Height` field. -/
structure StateCommitment where
  height : Height
deriving DecidableEq, Repr

/-- One remote LCP service call, recorded in the order performed. -/
inductive RemoteCall where
  | createClient (msg : MsgCreateClient)
  | updateClient (msg : ElcMsgUpdateClient)
  | verifyClient (msg : MsgVerifyClient)
  | verifyClientConsensus (msg : MsgVerifyClientConsensus)
  | verifyConnection (msg : MsgVerifyConnection)
  | verifyChannel (msg : MsgVerifyChannel)
  | verifyPacket (msg : MsgVerifyPacket)
  | verifyPacketAcknowledgement (msg : MsgVerifyPacketAcknowledgement)
deriving DecidableEq, Repr

/-- The client identifier carried by a remote call, when it has one. -/
def RemoteCall.clientIdOf : RemoteCall → Option String
  | .createClient _ => none
  | .updateClient m => some m.clientId
  | .verifyClient m => some m.clientId
  | .verifyClientConsensus m => some m.clientId
  | .verifyConnection m => some m.clientId
  | .verifyChannel m => some m.clientId
  | .verifyPacket m => some m.clientId
  | .verifyPacketAcknowledgement m => some m.clientId

/-- The store-key prefix carried by a delegated-verification call. -/
def RemoteCall.prefixOf : RemoteCall → Option Bytes
  | .createClient _ => none
  | .updateClient _ => none
  | .verifyClient m => some m.prefixBytes
  | .verifyClientConsensus m => some m.prefixBytes
  | .verifyConnection m => some m.prefixBytes
  | .verifyChannel m => some m.prefixBytes
  | .verifyPacket m => some m.prefixBytes
  | .verifyPacketAcknowledgement m => some m.prefixBytes

/-- The IBC host store key constant `host.StoreKey` (the string `ibc`
from ibc-go, external to the source slice). -/
def hostStoreKey : String := "ibc"

/-- The byte rendering `[]byte(host.StoreKey)` used as the store-key
prefix of every delegated-verification request. -/
def hostStoreKeyBytes : Bytes := hostStoreKey.data.map Char.toNat

/-- The environment: oracle behaviour of the external collaborators
(gRPC dialing, the origin prover, the remote LCP service, the protobuf
packers and the lcp commitment codec). -/
structure Env where
  dial : String → Except Err GrpcConn
  originCreateMsgCreateClient : String → Header → Signer → Except Err MsgCreateClient
  originSetupHeadersForUpdate : Except Err (List Header)
  originQueryClientState : Except Err QueryClientStateResponse
  originQueryClientConsensusState : Height → Except Err QueryConsensusStateResponse
  originQueryConnection : Except Err QueryConnectionResponse
  originQueryChannel : Except Err QueryChannelResponse
  originQueryPacketCommitment : Nat → Except Err QueryPacketCommitmentResponse
  originQueryPacketAcknowledgement : Nat → Except Err QueryPacketAcknowledgementResponse
  createClient : MsgCreateClient → Except Err MsgCreateClientResponse
  updateClient : ElcMsgUpdateClient → Except Err MsgUpdateClientResponse
  verifyClient : MsgVerifyClient → Except Err MsgVerifyResponse
  verifyClientConsensus : MsgVerifyClientConsensus → Except Err MsgVerifyResponse
  verifyConnection : MsgVerifyConnection → Except Err MsgVerifyResponse
  verifyChannel : MsgVerifyChannel → Except Err MsgVerifyResponse
  verifyPacket : MsgVerifyPacket → Except Err MsgVerifyResponse
  verifyPacketAcknowledgement : MsgVerifyPacketAcknowledgement → Except Err MsgVerifyResponse
  packHeader : Header → Except Err Bytes
  packClientState : LCPClientState → Except Err Bytes
  packConsensusState : LCPConsensusState → Except Err Bytes
  parseUpdateClientCommitment : Bytes → Except Err Unit
  parseStateCommitment : Bytes → Except Err StateCommitment
  toRLPBytes : Bytes → Bytes → Bytes → Bytes

/-- `initServiceClient`: dials the configured service address and, on
success, installs a fresh service client handle; on failure, returns
the transport error and leaves the session unchanged. -/
def initServiceClient (env : Env) (pr : Prover) : Except Err Unit × Prover :=
  match env.dial pr.config.lcpServiceAddress with
  | .error e => (.error e, pr)
  | .ok conn =>
    (.ok (), { pr with lcpServiceClient := some { conn := conn, codec := pr.codec } })

/-- `SetupForRelay`: performs the service-client initialization. -/
def setupForRelay (env : Env) (pr : Prover) : Except Err Unit × Prover :=
  initServiceClient env pr

/-- The error built by `CreateMsgCreateClient` when the remote-assigned
client id disagrees with the configured one. -/
def elcClientIdMismatchError (got expected : String) : Err :=
  "you must specify " ++ got ++ " as elc_client_id, but got " ++ expected

/-- The `lcptypes.ClientState` literal constructed by
`CreateMsgCreateClient` from the configuration. -/
def newLCPClientState (config : ProverConfig) : LCPClientState :=
  { latestHeight := { revisionNumber := 0, revisionHeight := 0 },
    mrenclave := config.getMrenclave,
    keyExpiration := 60 * 60 * 24 * 7,
    keys := [],
    attestationTimes := [],
    allowedQuoteStatuses := config.allowedQuoteStatuses,
    allowedAdvisoryIds := config.allowedAdvisoryIds }

/-- `CreateMsgCreateClient`: initializes the service client, obtains the
origin creation message, sends it to the remote `CreateClient` endpoint
with an empty signer, checks the returned client id against the
configured one, and on success packs the new LCP client/consensus states
into the destination-chain creation message. -/
def createMsgCreateClient (env : Env) (pr : Prover) (clientID : String)
    (dstHeader : Header) (signer : Signer) :
    Except Err MsgCreateClient × List RemoteCall × Prover :=
  match initServiceClient env pr with
  | (.error e, pr1) => (.error e, [], pr1)
  | (.ok _, pr1) =>
    match env.originCreateMsgCreateClient clientID dstHeader signer with
    | .error e => (.error e, [], pr1)
    | .ok msg =>
      let req : MsgCreateClient :=
        { clientState := msg.clientState, consensusState := msg.consensusState,
          signer := "" }
      match env.createClient req with
      | .error e => (.error e, [RemoteCall.createClient req], pr1)
      | .ok res =>
        if pr1.config.elcClientId ≠ res.clientId then
          (.error (elcClientIdMismatchError res.clientId pr1.config.elcClientId),
            [RemoteCall.createClient req], pr1)
        else
          match env.packClientState (newLCPClientState pr1.config) with
          | .error e => (.error e, [RemoteCall.createClient req], pr1)
          | .ok anyClientState =>
            match env.packConsensusState LCPConsensusState.mk with
            | .error e => (.error e, [RemoteCall.createClient req], pr1)
            | .ok anyConsensusState =>
              (.ok { clientState := anyClientState,
                     consensusState := anyConsensusState, signer := signer },
                [RemoteCall.createClient req], pr1)

/-- The per-header loop body of `SetupHeadersForUpdate`: pack each header,
send it to the remote `UpdateClient` endpoint with the bound client id,
check the returned commitment parses, and collect the destination headers;
any failure aborts with the error, discarding the headers built so far. -/
def applyHeadersLoop (env : Env) (elcClientId : String) :
    List Header → Except Err (List UpdateClientHeader) × List RemoteCall
  | [] => (.ok [], [])
  | h :: rest =>
    match env.packHeader h with
    | .error e => (.error e, [])
    | .ok anyHeader =>
      let req : ElcMsgUpdateClient := { clientId := elcClientId, header := anyHeader }
      match env.updateClient req with
      | .error e => (.error e, [RemoteCall.updateClient req])
      | .ok res =>
        match env.parseUpdateClientCommitment res.commitment with
        | .error e => (.error e, [RemoteCall.updateClient req])
        | .ok _ =>
          match applyHeadersLoop env elcClientId rest with
          | (.error e, calls) => (.error e, RemoteCall.updateClient req :: calls)
          | (.ok updates, calls) =>
            (.ok ({ commitment := res.commitment, signer := res.signer,
                    signature := res.signature } :: updates),
              RemoteCall.updateClient req :: calls)

/-- `SetupHeadersForUpdate`: initializes the service client, obtains the
ordered origin headers, returns empty on an empty sequence, and otherwise
applies every header in order through the remote `UpdateClient` endpoint. -/
def setupHeadersForUpdate (env : Env) (pr : Prover) :
    Except Err (List UpdateClientHeader) × List RemoteCall × Prover :=
  match initServiceClient env pr with
  | (.error e, pr1) => (.error e, [], pr1)
  | (.ok _, pr1) =>
    match env.originSetupHeadersForUpdate with
    | .error e => (.error e, [], pr1)
    | .ok headers =>
      match headers with
      | [] => (.ok [], [], pr1)
      | _ :: _ =>
        match applyHeadersLoop env pr1.config.elcClientId headers with
        | (r, calls) => (r, calls, pr1)

/-- The `ibc.MsgVerifyClient` request built by `QueryClientStateWithProof`. -/
def mkMsgVerifyClient (pr : Prover) (res : QueryClientStateResponse) :
    MsgVerifyClient :=
  { clientId := pr.config.elcClientId,
    prefixBytes := hostStoreKeyBytes,
    counterpartyClientId := pr.path.clientID,
    expectedAnyClientState := res.clientState,
    proofHeight := res.proofHeight,
    proof := res.proof }

/-- `QueryClientStateWithProof`: queries the origin prover, delegates to
the remote `VerifyClient` endpoint, parses the state commitment, and
repackages the response with the serialized commitment proof and the
commitment height. -/
def queryClientStateWithProof (env : Env) (pr : Prover) :
    Except Err QueryClientStateResponse × List RemoteCall × Prover :=
  match env.originQueryClientState with
  | .error e => (.error e, [], pr)
  | .ok res =>
    let req := mkMsgVerifyClient pr res
    match env.verifyClient req with
    | .error e => (.error e, [RemoteCall.verifyClient req], pr)
    | .ok res2 =>
      match env.parseStateCommitment res2.commitment with
      | .error e => (.error e, [RemoteCall.verifyClient req], pr)
      | .ok commitment =>
        (.ok { clientState := res.clientState,
               proof := env.toRLPBytes res2.commitment res2.signer res2.signature,
               proofHeight := commitment.height },
          [RemoteCall.verifyClient req], pr)

/-- The `ibc.MsgVerifyClientConsensus` request built by
`QueryClientConsensusStateWithProof`. -/
def mkMsgVerifyClientConsensus (pr : Prover) (dstClientConsHeight : Height)
    (res : QueryConsensusStateResponse) : MsgVerifyClientConsensus :=
  { clientId := pr.config.elcClientId,
    prefixBytes := hostStoreKeyBytes,
    counterpartyClientId := pr.path.clientID,
    consensusHeight := dstClientConsHeight,
    expectedAnyClientConsensusState := res.consensusState,
    proofHeight := res.proofHeight,
    proof := res.proof }

/-- `QueryClientConsensusStateWithProof`: like the client-state query, for
the consensus state at the given height. -/
def queryClientConsensusStateWithProof (env : Env) (pr : Prover)
    (dstClientConsHeight : Height) :
    Except Err QueryConsensusStateResponse × List RemoteCall × Prover :=
  match env.originQueryClientConsensusState dstClientConsHeight with
  | .error e => (.error e, [], pr)
  | .ok res =>
    let req := mkMsgVerifyClientConsensus pr dstClientConsHeight res
    match env.verifyClientConsensus req with
    | .error e => (.error e, [RemoteCall.verifyClientConsensus req], pr)
    | .ok res2 =>
      match env.parseStateCommitment res2.commitment with
      | .error e => (.error e, [RemoteCall.verifyClientConsensus req], pr)
      | .ok commitment =>
        (.ok { consensusState := res.consensusState,
               proof := env.toRLPBytes res2.commitment res2.signer res2.signature,
               proofHeight := commitment.height },
          [RemoteCall.verifyClientConsensus req], pr)

/-- The `ibc.MsgVerifyConnection` request built by
`QueryConnectionWithProof`. -/
def mkMsgVerifyConnection (pr : Prover) (res : QueryConnectionResponse) :
    MsgVerifyConnection :=
  { clientId := pr.config.elcClientId,
    prefixBytes := hostStoreKeyBytes,
    connectionId := pr.path.connectionID,
    expectedConnection := res.connection,
    proofHeight := res.proofHeight,
    proof := res.proof }

/-- `QueryConnectionWithProof`: queries the origin prover; a zero-length
origin proof means the connection does not exist and the origin result is
returned unchanged; otherwise delegates to the remote `VerifyConnection`
endpoint. -/
def queryConnectionWithProof (env : Env) (pr : Prover) :
    Except Err QueryConnectionResponse × List RemoteCall × Prover :=
  match env.originQueryConnection with
  | .error e => (.error e, [], pr)
  | .ok res =>
    if res.proof.length = 0 then
      (.ok res, [], pr)
    else
      let req := mkMsgVerifyConnection pr res
      match env.verifyConnection req with
      | .error e => (.error e, [RemoteCall.verifyConnection req], pr)
      | .ok res2 =>
        match env.parseStateCommitment res2.commitment with
        | .error e => (.error e, [RemoteCall.verifyConnection req], pr)
        | .ok commitment =>
          (.ok { connection := res.connection,
                 proof := env.toRLPBytes res2.commitment res2.signer res2.signature,
                 proofHeight := commitment.height },
            [RemoteCall.verifyConnection req], pr)

/-- The `ibc.MsgVerifyChannel` request built by `QueryChannelWithProof`. -/
def mkMsgVerifyChannel (pr : Prover) (res : QueryChannelResponse) :
    MsgVerifyChannel :=
  { clientId := pr.config.elcClientId,
    prefixBytes := hostStoreKeyBytes,
    portId := pr.path.portID,
    channelId := pr.path.channelID,
    expectedChannel := res.channel,
    proofHeight := res.proofHeight,
    proof := res.proof }

/-- `QueryChannelWithProof`: like the connection query, with the same
zero-length-proof short-circuit. -/
def queryChannelWithProof (env : Env) (pr : Prover) :
    Except Err QueryChannelResponse × List RemoteCall × Prover :=
  match env.originQueryChannel with
  | .error e => (.error e, [], pr)
  | .ok res =>
    if res.proof.length = 0 then
      (.ok res, [], pr)
    else
      let req := mkMsgVerifyChannel pr res
      match env.verifyChannel req with
      | .error e => (.error e, [RemoteCall.verifyChannel req], pr)
      | .ok res2 =>
        match env.parseStateCommitment res2.commitment with
        | .error e => (.error e, [RemoteCall.verifyChannel req], pr)
        | .ok commitment =>
          (.ok { channel := res.channel,
                 proof := env.toRLPBytes res2.commitment res2.signer res2.signature,
                 proofHeight := commitment.height },
            [RemoteCall.verifyChannel req], pr)

/-- The `ibc.MsgVerifyPacket` request built by
`QueryPacketCommitmentWithProof`. -/
def mkMsgVerifyPacket (pr : Prover) (seq : Nat)
    (res : QueryPacketCommitmentResponse) : MsgVerifyPacket :=
  { clientId := pr.config.elcClientId,
    prefixBytes := hostStoreKeyBytes,
    portId := pr.path.portID,
    channelId := pr.path.channelID,
    sequence := seq,
    commitment := res.commitment,
    proofHeight := res.proofHeight,
    proof := res.proof }

/-- `QueryPacketCommitmentWithProof`: queries the origin prover and
delegates to the remote `VerifyPacket` endpoint unconditionally. -/
def queryPacketCommitmentWithProof (env : Env) (pr : Prover) (seq : Nat) :
    Except Err QueryPacketCommitmentResponse × List RemoteCall × Prover :=
  match env.originQueryPacketCommitment seq with
  | .error e => (.error e, [], pr)
  | .ok res =>
    let req := mkMsgVerifyPacket pr seq res
    match env.verifyPacket req with
    | .error e => (.error e, [RemoteCall.verifyPacket req], pr)
    | .ok res2 =>
      match env.parseStateCommitment res2.commitment with
      | .error e => (.error e, [RemoteCall.verifyPacket req], pr)
      | .ok commitment =>
        (.ok { commitment := res.commitment,
               proof := env.toRLPBytes res2.commitment res2.signer res2.signature,
               proofHeight := commitment.height },
          [RemoteCall.verifyPacket req], pr)

/-- The `ibc.MsgVerifyPacketAcknowledgement` request built by
`QueryPacketAcknowledgementCommitmentWithProof`; its commitment field
carries the acknowledgement value. -/
def mkMsgVerifyPacketAcknowledgement (pr : Prover) (seq : Nat)
    (res : QueryPacketAcknowledgementResponse) : MsgVerifyPacketAcknowledgement :=
  { clientId := pr.config.elcClientId,
    prefixBytes := hostStoreKeyBytes,
    portId := pr.path.portID,
    channelId := pr.path.channelID,
    sequence := seq,
    commitment := res.acknowledgement,
    proofHeight := res.proofHeight,
    proof := res.proof }

/-- `QueryPacketAcknowledgementCommitmentWithProof`: queries the origin
prover and delegates to the remote `VerifyPacketAcknowledgement` endpoint
unconditionally. -/
def queryPacketAcknowledgementCommitmentWithProof (env : Env) (pr : Prover)
    (seq : Nat) :
    Except Err QueryPacketAcknowledgementResponse × List RemoteCall × Prover :=
  match env.originQueryPacketAcknowledgement seq with
  | .error e => (.error e, [], pr)
  | .ok res =>
    let req := mkMsgVerifyPacketAcknowledgement pr seq res
    match env.verifyPacketAcknowledgement req with
    | .error e => (.error e, [RemoteCall.verifyPacketAcknowledgement req], pr)
    | .ok res2 =>
      match env.parseStateCommitment res2.commitment with
      | .error e => (.error e, [RemoteCall.verifyPacketAcknowledgement req], pr)
      | .ok commitment =>
        (.ok { acknowledgement := res.acknowledgement,
               proof := env.toRLPBytes res2.commitment res2.signer res2.signature,
               proofHeight := commitment.height },
          [RemoteCall.verifyPacketAcknowledgement req], pr)

/-! ### Concrete sample data used to instantiate the theorems -/

/-- A sample prover configuration. -/
def demoConfig : ProverConfig :=
  { lcpServiceAddress := "addr", elcClientId := "elc-0", mrenclave := [1, 2],
    allowedQuoteStatuses := ["GROUP_OUT_OF_DATE"], allowedAdvisoryIds := [] }

/-- A sample path. -/
def demoPath : PathEnd :=
  { clientID := "lcp-client-0", connectionID := "connection-0",
    channelID := "channel-0", portID := "transfer" }

/-- A sample prover session. -/
def demoProver : Prover :=
  { config := demoConfig, originChainId := "chain-0", originProverId := 0,
    codec := { id := 0 }, path := demoPath, lcpServiceClient := none }

/-- A sample prover session whose configured client id disagrees with the
one the sample service assigns. -/
def demoProverBad : Prover :=
  { demoProver with config := { demoConfig with elcClientId := "bad" } }

/-- A sample environment in which every external call succeeds. -/
def demoEnv : Env :=
  { dial := fun addr => .ok { target := addr },
    originCreateMsgCreateClient := fun _ _ s => .ok { clientState := [10], consensusState := [11], signer := s },
    originSetupHeadersForUpdate := .ok [[1], [2]],
    originQueryClientState := .ok { clientState := [20], proof := [7], proofHeight := { revisionNumber := 0, revisionHeight := 5 } },
    originQueryClientConsensusState := fun _ => .ok { consensusState := [21], proof := [7], proofHeight := { revisionNumber := 0, revisionHeight := 5 } },
    originQueryConnection := .ok { connection := [22], proof := [7], proofHeight := { revisionNumber := 0, revisionHeight := 5 } },
    originQueryChannel := .ok { channel := [23], proof := [7], proofHeight := { revisionNumber := 0, revisionHeight := 5 } },
    originQueryPacketCommitment := fun _ => .ok { commitment := [24], proof := [7], proofHeight := { revisionNumber := 0, revisionHeight := 5 } },
    originQueryPacketAcknowledgement := fun _ => .ok { acknowledgement := [25], proof := [7], proofHeight := { revisionNumber := 0, revisionHeight := 5 } },
    createClient := fun _ => .ok { clientId := "elc-0" },
    updateClient := fun m => .ok { commitment := 170 :: m.header, signer := [3], signature := [4] },
    verifyClient := fun _ => .ok { commitment := [30], signer := [31], signature := [32] },
    verifyClientConsensus := fun _ => .ok { commitment := [30], signer := [31], signature := [32] },
    verifyConnection := fun _ => .ok { commitment := [30], signer := [31], signature := [32] },
    verifyChannel := fun _ => .ok { commitment := [30], signer := [31], signature := [32] },
    verifyPacket := fun _ => .ok { commitment := [30], signer := [31], signature := [32] },
    verifyPacketAcknowledgement := fun _ => .ok { commitment := [30], signer := [31], signature := [32] },
    packHeader := fun h => .ok h,
    packClientState := fun _ => .ok [40],
    packConsensusState := fun _ => .ok [41],
    parseUpdateClientCommitment := fun _ => .ok (),
    parseStateCommitment := fun _ => .ok { height := { revisionNumber := 1, revisionHeight := 9 } },
    toRLPBytes := fun c s g => c ++ s ++ g }

/-- A sample origin response for a packet commitment whose proof bytes
are empty. -/
def demoEmptyPacketRes : QueryPacketCommitmentResponse :=
  { commitment := [24], proof := [],
    proofHeight := { revisionNumber := 0, revisionHeight := 5 } }

/-- A variant of `demoEnv` in which the origin proofs for the connection,
channel and packet-commitment queries have zero length. -/
def demoEnvEmptyProof : Env :=
  { demoEnv with
    originQueryConnection := .ok { connection := [22], proof := [], proofHeight := { revisionNumber := 0, revisionHeight := 5 } },
    originQueryChannel := .ok { channel := [23], proof := [], proofHeight := { revisionNumber := 0, revisionHeight := 5 } },
    originQueryPacketCommitment := fun _ => .ok demoEmptyPacketRes }

/-- A variant of `demoEnv` in which dialing the service fails. -/
def demoEnvDialFail : Env :=
  { demoEnv with dial := fun _ => .error "connection refused" }

/-- A variant of `demoEnv` in which the origin prover returns no headers. -/
def demoEnvNoHeaders : Env :=
  { demoEnv with originSetupHeadersForUpdate := .ok [] }

/-- A variant of `demoEnv` in which the origin prover returns three
headers and the remote update call rejects the second one. -/
def demoEnvUpdateFail : Env :=
  { demoEnv with
    originSetupHeadersForUpdate := .ok [[1], [2], [3]],
    updateClient := fun m =>
      if m.header = [2] then .error "update rejected"
      else .ok { commitment := 170 :: m.header, signer := [3], signature := [4] } }

/-! ### Helper lemmas -/

/-- A remote call whose client id is the session's bound client id and
whose store-key prefix is the IBC host store key. -/
def goodCall (pr : Prover) (c : RemoteCall) : Prop :=
  c.clientIdOf = some pr.config.elcClientId ∧ c.prefixOf = some hostStoreKeyBytes

theorem queryClientStateWithProof_state (env : Env) (pr : Prover) :
    (queryClientStateWithProof env pr).2.2 = pr := by
  unfold queryClientStateWithProof
  split
  · rfl
  · dsimp only
    split
    · rfl
    · split <;> rfl

theorem queryClientConsensusStateWithProof_state (env : Env) (pr : Prover)
    (dstClientConsHeight : Height) :
    (queryClientConsensusStateWithProof env pr dstClientConsHeight).2.2 = pr := by
  unfold queryClientConsensusStateWithProof
  split
  · rfl
  · dsimp only
    split
    · rfl
    · split <;> rfl

theorem queryConnectionWithProof_state (env : Env) (pr : Prover) :
    (queryConnectionWithProof env pr).2.2 = pr := by
  unfold queryConnectionWithProof
  split
  · rfl
  · dsimp only
    split
    · rfl
    · split
      · rfl
      · split <;> rfl

theorem queryChannelWithProof_state (env : Env) (pr : Prover) :
    (queryChannelWithProof env pr).2.2 = pr := by
  unfold queryChannelWithProof
  split
  · rfl
  · dsimp only
    split
    · rfl
    · split
      · rfl
      · split <;> rfl

theorem queryPacketCommitmentWithProof_state (env : Env) (pr : Prover) (seq : Nat) :
    (queryPacketCommitmentWithProof env pr seq).2.2 = pr := by
  unfold queryPacketCommitmentWithProof
  split
  · rfl
  · dsimp only
    split
    · rfl
    · split <;> rfl

theorem queryPacketAcknowledgementCommitmentWithProof_state (env : Env) (pr : Prover)
    (seq : Nat) :
    (queryPacketAcknowledgementCommitmentWithProof env pr seq).2.2 = pr := by
  unfold queryPacketAcknowledgementCommitmentWithProof
  split
  · rfl
  · dsimp only
    split
    · rfl
    · split <;> rfl

theorem queryClientStateWithProof_delegate (env : Env) (pr : Prover)
    (res : QueryClientStateResponse) (res2 : MsgVerifyResponse) (sc : StateCommitment)
    (h1 : env.originQueryClientState = .ok res)
    (h2 : env.verifyClient (mkMsgVerifyClient pr res) = .ok res2)
    (h3 : env.parseStateCommitment res2.commitment = .ok sc) :
    queryClientStateWithProof env pr =
      (.ok { clientState := res.clientState,
             proof := env.toRLPBytes res2.commitment res2.signer res2.signature,
             proofHeight := sc.height },
       [RemoteCall.verifyClient (mkMsgVerifyClient pr res)], pr) := by
  unfold queryClientStateWithProof
  rw [h1]
  dsimp only
  rw [h2]
  dsimp only
  rw [h3]

theorem queryClientConsensusStateWithProof_delegate (env : Env) (pr : Prover)
    (dstClientConsHeight : Height) (res : QueryConsensusStateResponse)
    (res2 : MsgVerifyResponse) (sc : StateCommitment)
    (h1 : env.originQueryClientConsensusState dstClientConsHeight = .ok res)
    (h2 : env.verifyClientConsensus (mkMsgVerifyClientConsensus pr dstClientConsHeight res) = .ok res2)
    (h3 : env.parseStateCommitment res2.commitment = .ok sc) :
    queryClientConsensusStateWithProof env pr dstClientConsHeight =
      (.ok { consensusState := res.consensusState,
             proof := env.toRLPBytes res2.commitment res2.signer res2.signature,
             proofHeight := sc.height },
       [RemoteCall.verifyClientConsensus (mkMsgVerifyClientConsensus pr dstClientConsHeight res)], pr) := by
  unfold queryClientConsensusStateWithProof
  rw [h1]
  dsimp only
  rw [h2]
  dsimp only
  rw [h3]

theorem queryConnectionWithProof_delegate (env : Env) (pr : Prover)
    (res : QueryConnectionResponse) (res2 : MsgVerifyResponse) (sc : StateCommitment)
    (h1 : env.originQueryConnection = .ok res)
    (hne : res.proof.length ≠ 0)
    (h2 : env.verifyConnection (mkMsgVerifyConnection pr res) = .ok res2)
    (h3 : env.parseStateCommitment res2.commitment = .ok sc) :
    queryConnectionWithProof env pr =
      (.ok { connection := res.connection,
             proof := env.toRLPBytes res2.commitment res2.signer res2.signature,
             proofHeight := sc.height },
       [RemoteCall.verifyConnection (mkMsgVerifyConnection pr res)], pr) := by
  unfold queryConnectionWithProof
  rw [h1]
  dsimp only
  rw [if_neg hne]
  rw [h2]
  dsimp only
  rw [h3]

theorem queryChannelWithProof_delegate (env : Env) (pr : Prover)
    (res : QueryChannelResponse) (res2 : MsgVerifyResponse) (sc : StateCommitment)
    (h1 : env.originQueryChannel = .ok res)
    (hne : res.proof.length ≠ 0)
    (h2 : env.verifyChannel (mkMsgVerifyChannel pr res) = .ok res2)
    (h3 : env.parseStateCommitment res2.commitment = .ok sc) :
    queryChannelWithProof env pr =
      (.ok { channel := res.channel,
             proof := env.toRLPBytes res2.commitment res2.signer res2.signature,
             proofHeight := sc.height },
       [RemoteCall.verifyChannel (mkMsgVerifyChannel pr res)], pr) := by
  unfold queryChannelWithProof
  rw [h1]
  dsimp only
  rw [if_neg hne]
  rw [h2]
  dsimp only
  rw [h3]

theorem queryPacketCommitmentWithProof_delegate (env : Env) (pr : Prover) (seq : Nat)
    (res : QueryPacketCommitmentResponse) (res2 : MsgVerifyResponse) (sc : StateCommitment)
    (h1 : env.originQueryPacketCommitment seq = .ok res)
    (h2 : env.verifyPacket (mkMsgVerifyPacket pr seq res) = .ok res2)
    (h3 : env.parseStateCommitment res2.commitment = .ok sc) :
    queryPacketCommitmentWithProof env pr seq =
      (.ok { commitment := res.commitment,
             proof := env.toRLPBytes res2.commitment res2.signer res2.signature,
             proofHeight := sc.height },
       [RemoteCall.verifyPacket (mkMsgVerifyPacket pr seq res)], pr) := by
  unfold queryPacketCommitmentWithProof
  rw [h1]
  dsimp only
  rw [h2]
  dsimp only
  rw [h3]

theorem queryPacketAcknowledgementCommitmentWithProof_delegate (env : Env) (pr : Prover)
    (seq : Nat) (res : QueryPacketAcknowledgementResponse) (res2 : MsgVerifyResponse)
    (sc : StateCommitment)
    (h1 : env.originQueryPacketAcknowledgement seq = .ok res)
    (h2 : env.verifyPacketAcknowledgement (mkMsgVerifyPacketAcknowledgement pr seq res) = .ok res2)
    (h3 : env.parseStateCommitment res2.commitment = .ok sc) :
    queryPacketAcknowledgementCommitmentWithProof env pr seq =
      (.ok { acknowledgement := res.acknowledgement,
             proof := env.toRLPBytes res2.commitment res2.signer res2.signature,
             proofHeight := sc.height },
       [RemoteCall.verifyPacketAcknowledgement (mkMsgVerifyPacketAcknowledgement pr seq res)], pr) := by
  unfold queryPacketAcknowledgementCommitmentWithProof
  rw [h1]
  dsimp only
  rw [h2]
  dsimp only
  rw [h3]

theorem queryConnectionWithProof_emptyProof (env : Env) (pr : Prover)
    (res : QueryConnectionResponse)
    (h1 : env.originQueryConnection = .ok res)
    (h0 : res.proof.length = 0) :
    queryConnectionWithProof env pr = (.ok res, [], pr) := by
  unfold queryConnectionWithProof
  rw [h1]
  dsimp only
  rw [if_pos h0]

theorem queryChannelWithProof_emptyProof (env : Env) (pr : Prover)
    (res : QueryChannelResponse)
    (h1 : env.originQueryChannel = .ok res)
    (h0 : res.proof.length = 0) :
    queryChannelWithProof env pr = (.ok res, [], pr) := by
  unfold queryChannelWithProof
  rw [h1]
  dsimp only
  rw [if_pos h0]

theorem queryClientStateWithProof_calls (env : Env) (pr : Prover) :
    ∀ c ∈ (queryClientStateWithProof env pr).2.1, goodCall pr c := by
  intro c hc
  unfold queryClientStateWithProof at hc
  split at hc
  · simp at hc
  · dsimp only at hc
    split at hc
    · simp at hc
      subst hc
      exact ⟨rfl, rfl⟩
    · split at hc <;>
      · simp at hc
        subst hc
        exact ⟨rfl, rfl⟩

theorem queryClientConsensusStateWithProof_calls (env : Env) (pr : Prover)
    (dstClientConsHeight : Height) :
    ∀ c ∈ (queryClientConsensusStateWithProof env pr dstClientConsHeight).2.1,
      goodCall pr c := by
  intro c hc
  unfold queryClientConsensusStateWithProof at hc
  split at hc
  · simp at hc
  · dsimp only at hc
    split at hc
    · simp at hc
      subst hc
      exact ⟨rfl, rfl⟩
    · split at hc <;>
      · simp at hc
        subst hc
        exact ⟨rfl, rfl⟩

theorem queryConnectionWithProof_calls (env : Env) (pr : Prover) :
    ∀ c ∈ (queryConnectionWithProof env pr).2.1, goodCall pr c := by
  intro c hc
  unfold queryConnectionWithProof at hc
  split at hc
  · simp at hc
  · dsimp only at hc
    split at hc
    · simp at hc
    · split at hc
      · simp at hc
        subst hc
        exact ⟨rfl, rfl⟩
      · split at hc <;>
        · simp at hc
          subst hc
          exact ⟨rfl, rfl⟩

theorem queryChannelWithProof_calls (env : Env) (pr : Prover) :
    ∀ c ∈ (queryChannelWithProof env pr).2.1, goodCall pr c := by
  intro c hc
  unfold queryChannelWithProof at hc
  split at hc
  · simp at hc
  · dsimp only at hc
    split at hc
    · simp at hc
    · split at hc
      · simp at hc
        subst hc
        exact ⟨rfl, rfl⟩
      · split at hc <;>
        · simp at hc
          subst hc
          exact ⟨rfl, rfl⟩

theorem queryPacketCommitmentWithProof_calls (env : Env) (pr : Prover) (seq : Nat) :
    ∀ c ∈ (queryPacketCommitmentWithProof env pr seq).2.1, goodCall pr c := by
  intro c hc
  unfold queryPacketCommitmentWithProof at hc
  split at hc
  · simp at hc
  · dsimp only at hc
    split at hc
    · simp at hc
      subst hc
      exact ⟨rfl, rfl⟩
    · split at hc <;>
      · simp at hc
        subst hc
        exact ⟨rfl, rfl⟩

theorem queryPacketAcknowledgementCommitmentWithProof_calls (env : Env) (pr : Prover)
    (seq : Nat) :
    ∀ c ∈ (queryPacketAcknowledgementCommitmentWithProof env pr seq).2.1,
      goodCall pr c := by
  intro c hc
  unfold queryPacketAcknowledgementCommitmentWithProof at hc
  split at hc
  · simp at hc
  · dsimp only at hc
    split at hc
    · simp at hc
      subst hc
      exact ⟨rfl, rfl⟩
    · split at hc <;>
      · simp at hc
        subst hc
        exact ⟨rfl, rfl⟩

theorem initServiceClient_dialFail (env : Env) (pr : Prover) (e : Err)
    (h : env.dial pr.config.lcpServiceAddress = .error e) :
    initServiceClient env pr = (.error e, pr) := by
  unfold initServiceClient
  rw [h]

theorem initServiceClient_ok (env : Env) (pr : Prover) (conn : GrpcConn)
    (h : env.dial pr.config.lcpServiceAddress = .ok conn) :
    initServiceClient env pr =
      (.ok (), { pr with lcpServiceClient := some { conn := conn, codec := pr.codec } }) := by
  unfold initServiceClient
  rw [h]

theorem createMsgCreateClient_dialFail (env : Env) (pr : Prover) (clientID : String)
    (dstHeader : Header) (signer : Signer) (e : Err)
    (h : env.dial pr.config.lcpServiceAddress = .error e) :
    createMsgCreateClient env pr clientID dstHeader signer = (.error e, [], pr) := by
  unfold createMsgCreateClient
  rw [initServiceClient_dialFail env pr e h]

theorem setupHeadersForUpdate_dialFail (env : Env) (pr : Prover) (e : Err)
    (h : env.dial pr.config.lcpServiceAddress = .error e) :
    setupHeadersForUpdate env pr = (.error e, [], pr) := by
  unfold setupHeadersForUpdate
  rw [initServiceClient_dialFail env pr e h]

theorem setupForRelay_dialFail (env : Env) (pr : Prover) (e : Err)
    (h : env.dial pr.config.lcpServiceAddress = .error e) :
    setupForRelay env pr = (.error e, pr) := by
  unfold setupForRelay
  rw [initServiceClient_dialFail env pr e h]

theorem createMsgCreateClient_state (env : Env) (pr : Prover) (clientID : String)
    (dstHeader : Header) (signer : Signer) :
    (createMsgCreateClient env pr clientID dstHeader signer).2.2 =
      (initServiceClient env pr).2 := by
  unfold createMsgCreateClient
  split
  next e pr1 heq =>
    rw [heq]
  next u pr1 heq =>
    rw [heq]
    dsimp only
    split
    · rfl
    · split
      · rfl
      · split
        · rfl
        · split
          · rfl
          · split <;> rfl

theorem setupHeadersForUpdate_state (env : Env) (pr : Prover) :
    (setupHeadersForUpdate env pr).2.2 = (initServiceClient env pr).2 := by
  unfold setupHeadersForUpdate
  split
  next e pr1 heq =>
    rw [heq]
  next u pr1 heq =>
    rw [heq]
    dsimp only
    split
    · rfl
    · split
      · rfl
      · rfl

theorem setupForRelay_state (env : Env) (pr : Prover) :
    (setupForRelay env pr).2 = (initServiceClient env pr).2 := rfl

theorem createMsgCreateClient_ok (env : Env) (pr : Prover) (clientID : String)
    (dstHeader : Header) (signer : Signer) (conn : GrpcConn) (msg : MsgCreateClient)
    (res : MsgCreateClientResponse) (acs acons : Bytes)
    (hdial : env.dial pr.config.lcpServiceAddress = .ok conn)
    (horig : env.originCreateMsgCreateClient clientID dstHeader signer = .ok msg)
    (hcc : env.createClient { clientState := msg.clientState, consensusState := msg.consensusState, signer := "" } = .ok res)
    (heq : pr.config.elcClientId = res.clientId)
    (hpc : env.packClientState (newLCPClientState pr.config) = .ok acs)
    (hpcons : env.packConsensusState LCPConsensusState.mk = .ok acons) :
    createMsgCreateClient env pr clientID dstHeader signer =
      (.ok { clientState := acs, consensusState := acons, signer := signer },
       [RemoteCall.createClient { clientState := msg.clientState, consensusState := msg.consensusState, signer := "" }],
       { pr with lcpServiceClient := some { conn := conn, codec := pr.codec } }) := by
  unfold createMsgCreateClient
  rw [initServiceClient_ok env pr conn hdial]
  dsimp only
  rw [horig]
  dsimp only
  rw [hcc]
  dsimp only
  rw [if_neg (fun hne => hne heq)]
  rw [hpc]
  dsimp only
  rw [hpcons]

theorem createMsgCreateClient_mismatch (env : Env) (pr : Prover) (clientID : String)
    (dstHeader : Header) (signer : Signer) (conn : GrpcConn) (msg : MsgCreateClient)
    (res : MsgCreateClientResponse)
    (hdial : env.dial pr.config.lcpServiceAddress = .ok conn)
    (horig : env.originCreateMsgCreateClient clientID dstHeader signer = .ok msg)
    (hcc : env.createClient { clientState := msg.clientState, consensusState := msg.consensusState, signer := "" } = .ok res)
    (hne : pr.config.elcClientId ≠ res.clientId) :
    createMsgCreateClient env pr clientID dstHeader signer =
      (.error (elcClientIdMismatchError res.clientId pr.config.elcClientId),
       [RemoteCall.createClient { clientState := msg.clientState, consensusState := msg.consensusState, signer := "" }],
       { pr with lcpServiceClient := some { conn := conn, codec := pr.codec } }) := by
  unfold createMsgCreateClient
  rw [initServiceClient_ok env pr conn hdial]
  dsimp only
  rw [horig]
  dsimp only
  rw [hcc]
  dsimp only
  rw [if_pos hne]

theorem applyHeadersLoop_ok (env : Env) (cid : String) (pk : Header → Bytes)
    (up : Header → MsgUpdateClientResponse) :
    ∀ headers : List Header,
      (∀ h ∈ headers, env.packHeader h = .ok (pk h)) →
      (∀ h ∈ headers, env.updateClient { clientId := cid, header := pk h } = .ok (up h)) →
      (∀ h ∈ headers, env.parseUpdateClientCommitment (up h).commitment = .ok ()) →
      applyHeadersLoop env cid headers =
        (.ok (headers.map fun h =>
            { commitment := (up h).commitment, signer := (up h).signer,
              signature := (up h).signature }),
         headers.map fun h => RemoteCall.updateClient { clientId := cid, header := pk h }) := by
  intro headers
  induction headers with
  | nil =>
    intro _ _ _
    rfl
  | cons h rest ih =>
    intro hpk hup hparse
    have ihh := ih (fun y hy => hpk y (List.mem_cons_of_mem _ hy))
      (fun y hy => hup y (List.mem_cons_of_mem _ hy))
      (fun y hy => hparse y (List.mem_cons_of_mem _ hy))
    unfold applyHeadersLoop
    rw [hpk h (List.mem_cons_self _ _)]
    dsimp only
    rw [hup h (List.mem_cons_self _ _)]
    dsimp only
    rw [hparse h (List.mem_cons_self _ _)]
    dsimp only
    rw [ihh]
    rfl

theorem applyHeadersLoop_fail (env : Env) (cid : String) (pk : Header → Bytes)
    (up : Header → MsgUpdateClientResponse) (h : Header) (post : List Header) (e : Err)
    (hpkh : env.packHeader h = .ok (pk h))
    (hfail : env.updateClient { clientId := cid, header := pk h } = .error e ∨
      ∃ r, env.updateClient { clientId := cid, header := pk h } = .ok r ∧
        env.parseUpdateClientCommitment r.commitment = .error e) :
    ∀ pre : List Header,
      (∀ x ∈ pre, env.packHeader x = .ok (pk x)) →
      (∀ x ∈ pre, env.updateClient { clientId := cid, header := pk x } = .ok (up x)) →
      (∀ x ∈ pre, env.parseUpdateClientCommitment (up x).commitment = .ok ()) →
      applyHeadersLoop env cid (pre ++ h :: post) =
        (.error e,
         (pre.map fun x => RemoteCall.updateClient { clientId := cid, header := pk x }) ++
           [RemoteCall.updateClient { clientId := cid, header := pk h }]) := by
  intro pre
  induction pre with
  | nil =>
    intro _ _ _
    simp only [List.nil_append, List.map_nil]
    unfold applyHeadersLoop
    rw [hpkh]
    dsimp only
    rcases hfail with hf | ⟨r, hok, hpf⟩
    · rw [hf]
    · rw [hok]
      dsimp only
      rw [hpf]
  | cons x rest ih =>
    intro hpk hup hparse
    have ihh := ih (fun y hy => hpk y (List.mem_cons_of_mem _ hy))
      (fun y hy => hup y (List.mem_cons_of_mem _ hy))
      (fun y hy => hparse y (List.mem_cons_of_mem _ hy))
    simp only [List.cons_append]
    unfold applyHeadersLoop
    rw [hpk x (List.mem_cons_self _ _)]
    dsimp only
    rw [hup x (List.mem_cons_self _ _)]
    dsimp only
    rw [hparse x (List.mem_cons_self _ _)]
    dsimp only
    rw [ihh]
    rfl

theorem setupHeadersForUpdate_ok (env : Env) (pr : Prover) (conn : GrpcConn)
    (headers : List Header) (pk : Header → Bytes) (up : Header → MsgUpdateClientResponse)
    (hdial : env.dial pr.config.lcpServiceAddress = .ok conn)
    (horig : env.originSetupHeadersForUpdate = .ok headers)
    (hne : headers ≠ [])
    (hpk : ∀ h ∈ headers, env.packHeader h = .ok (pk h))
    (hup : ∀ h ∈ headers,
      env.updateClient { clientId := pr.config.elcClientId, header := pk h } = .ok (up h))
    (hparse : ∀ h ∈ headers,
      env.parseUpdateClientCommitment (up h).commitment = .ok ()) :
    setupHeadersForUpdate env pr =
      (.ok (headers.map fun h =>
          { commitment := (up h).commitment, signer := (up h).signer,
            signature := (up h).signature }),
       headers.map fun h =>
         RemoteCall.updateClient { clientId := pr.config.elcClientId, header := pk h },
       { pr with lcpServiceClient := some { conn := conn, codec := pr.codec } }) := by
  unfold setupHeadersForUpdate
  rw [initServiceClient_ok env pr conn hdial]
  dsimp only
  rw [horig]
  dsimp only
  rcases headers with _ | ⟨h0, rest⟩
  · exact absurd rfl hne
  · dsimp only
    rw [applyHeadersLoop_ok env pr.config.elcClientId pk up (h0 :: rest) hpk hup hparse]

theorem setupHeadersForUpdate_empty (env : Env) (pr : Prover) (conn : GrpcConn)
    (hdial : env.dial pr.config.lcpServiceAddress = .ok conn)
    (horig : env.originSetupHeadersForUpdate = .ok []) :
    setupHeadersForUpdate env pr =
      (.ok [], [],
       { pr with lcpServiceClient := some { conn := conn, codec := pr.codec } }) := by
  unfold setupHeadersForUpdate
  rw [initServiceClient_ok env pr conn hdial]
  dsimp only
  rw [horig]

theorem setupHeadersForUpdate_fail (env : Env) (pr : Prover) (conn : GrpcConn)
    (pre : List Header) (h : Header) (post : List Header) (e : Err)
    (pk : Header → Bytes) (up : Header → MsgUpdateClientResponse)
    (hdial : env.dial pr.config.lcpServiceAddress = .ok conn)
    (horig : env.originSetupHeadersForUpdate = .ok (pre ++ h :: post))
    (hpkh : env.packHeader h = .ok (pk h))
    (hfail : env.updateClient { clientId := pr.config.elcClientId, header := pk h } = .error e ∨
      ∃ r, env.updateClient { clientId := pr.config.elcClientId, header := pk h } = .ok r ∧
        env.parseUpdateClientCommitment r.commitment = .error e)
    (hpk : ∀ x ∈ pre, env.packHeader x = .ok (pk x))
    (hup : ∀ x ∈ pre,
      env.updateClient { clientId := pr.config.elcClientId, header := pk x } = .ok (up x))
    (hparse : ∀ x ∈ pre,
      env.parseUpdateClientCommitment (up x).commitment = .ok ()) :
    setupHeadersForUpdate env pr =
      (.error e,
       (pre.map fun x =>
           RemoteCall.updateClient { clientId := pr.config.elcClientId, header := pk x }) ++
         [RemoteCall.updateClient { clientId := pr.config.elcClientId, header := pk h }],
       { pr with lcpServiceClient := some { conn := conn, codec := pr.codec } }) := by
  unfold setupHeadersForUpdate
  rw [initServiceClient_ok env pr conn hdial]
  dsimp only
  rw [horig]
  dsimp only
  have hloop := applyHeadersLoop_fail env pr.config.elcClientId pk up h post e hpkh hfail
    pre hpk hup hparse
  rcases pre with _ | ⟨x, rest⟩
  · simp only [List.nil_append, List.map_nil] at hloop ⊢
    rw [hloop]
  · simp only [List.cons_append, List.map_cons] at hloop ⊢
    rw [hloop]

/-! ### Claim theorems -/

/-- C1 counterexample: the claim states that all six delegated
query-with-proof operations short-circuit on zero-length origin proof
bytes, but `QueryPacketCommitmentWithProof` delegates unconditionally:
with the concrete environment `demoEnvEmptyProof`, whose origin
packet-commitment proof bytes are empty, the operation still performs a
remote verification call and does not return the origin result
unchanged. -/
theorem C1_counterexample :
    demoEnvEmptyProof.originQueryPacketCommitment 1 = .ok demoEmptyPacketRes ∧
    demoEmptyPacketRes.proof = [] ∧
    (queryPacketCommitmentWithProof demoEnvEmptyProof demoProver 1).2.1 ≠ [] ∧
    (queryPacketCommitmentWithProof demoEnvEmptyProof demoProver 1).1 ≠
      .ok demoEmptyPacketRes := by
  decide

/-- C1 (amended): only the connection and channel query-with-proof
operations short-circuit on zero-length origin proof bytes; for those
two, a zero-length origin proof makes the operation return the origin
result unchanged, perform no remote verification call, and leave the
session unchanged. -/
theorem C1_empty_proof_short_circuit :
    (∀ (env : Env) (pr : Prover) (res : QueryConnectionResponse),
      env.originQueryConnection = .ok res → res.proof.length = 0 →
      queryConnectionWithProof env pr = (.ok res, [], pr)) ∧
    (∀ (env : Env) (pr : Prover) (res : QueryChannelResponse),
      env.originQueryChannel = .ok res → res.proof.length = 0 →
      queryChannelWithProof env pr = (.ok res, [], pr)) :=
  ⟨fun env pr res h1 h0 => queryConnectionWithProof_emptyProof env pr res h1 h0,
   fun env pr res h1 h0 => queryChannelWithProof_emptyProof env pr res h1 h0⟩

/-- C1 witness: the short-circuit theorem applied to a concrete
environment whose origin connection and channel proofs are empty. -/
theorem C1_witness :
    queryConnectionWithProof demoEnvEmptyProof demoProver =
      (.ok { connection := [22], proof := [],
             proofHeight := { revisionNumber := 0, revisionHeight := 5 } },
       [], demoProver) ∧
    queryChannelWithProof demoEnvEmptyProof demoProver =
      (.ok { channel := [23], proof := [],
             proofHeight := { revisionNumber := 0, revisionHeight := 5 } },
       [], demoProver) :=
  ⟨C1_empty_proof_short_circuit.1 demoEnvEmptyProof demoProver
      { connection := [22], proof := [],
        proofHeight := { revisionNumber := 0, revisionHeight := 5 } }
      (by decide) (by decide),
   C1_empty_proof_short_circuit.2 demoEnvEmptyProof demoProver
      { channel := [23], proof := [],
        proofHeight := { revisionNumber := 0, revisionHeight := 5 } }
      (by decide) (by decide)⟩

/-- C2: given that dialing, the origin creation call and the remote
creation call succeed and both packings succeed, `CreateMsgCreateClient`
fails with the configuration-mismatch error iff the configured bound
client identifier differs from the remote-assigned one, and otherwise
succeeds. -/
theorem C2_identity_binding :
    ∀ (env : Env) (pr : Prover) (clientID : String) (dstHeader : Header)
      (signer : Signer) (conn : GrpcConn) (msg : MsgCreateClient)
      (res : MsgCreateClientResponse) (acs acons : Bytes),
      env.dial pr.config.lcpServiceAddress = .ok conn →
      env.originCreateMsgCreateClient clientID dstHeader signer = .ok msg →
      env.createClient { clientState := msg.clientState, consensusState := msg.consensusState, signer := "" } = .ok res →
      env.packClientState (newLCPClientState pr.config) = .ok acs →
      env.packConsensusState LCPConsensusState.mk = .ok acons →
      (((createMsgCreateClient env pr clientID dstHeader signer).1 =
          .error (elcClientIdMismatchError res.clientId pr.config.elcClientId)) ↔
        pr.config.elcClientId ≠ res.clientId) ∧
      (pr.config.elcClientId = res.clientId →
        (createMsgCreateClient env pr clientID dstHeader signer).1 =
          .ok { clientState := acs, consensusState := acons, signer := signer }) := by
  intro env pr clientID dstHeader signer conn msg res acs acons hdial horig hcc hpc hpcons
  by_cases heq : pr.config.elcClientId = res.clientId
  · have hok := createMsgCreateClient_ok env pr clientID dstHeader signer conn msg res
      acs acons hdial horig hcc heq hpc hpcons
    refine ⟨⟨fun hres => ?_, fun hne => absurd heq hne⟩, fun _ => ?_⟩
    · rw [hok] at hres
      simp at hres
    · rw [hok]
  · have hm := createMsgCreateClient_mismatch env pr clientID dstHeader signer conn msg res
      hdial horig hcc heq
    refine ⟨⟨fun _ => heq, fun _ => ?_⟩, fun h => absurd h heq⟩
    rw [hm]

/-- C2 witness: with a concrete all-succeeding environment, a matching
configuration yields the packed creation message and a mismatching one
yields the configuration-mismatch error. -/
theorem C2_witness :
    (createMsgCreateClient demoEnv demoProver "c" [0] "alice").1 =
      .ok { clientState := [40], consensusState := [41], signer := "alice" } ∧
    (createMsgCreateClient demoEnv demoProverBad "c" [0] "alice").1 =
      .error (elcClientIdMismatchError "elc-0" "bad") :=
  ⟨(C2_identity_binding demoEnv demoProver "c" [0] "alice" { target := "addr" }
      { clientState := [10], consensusState := [11], signer := "alice" }
      { clientId := "elc-0" } [40] [41]
      (by decide) (by decide) (by decide) (by decide) (by decide)).2 (by decide),
   (C2_identity_binding demoEnv demoProverBad "c" [0] "alice" { target := "addr" }
      { clientState := [10], consensusState := [11], signer := "alice" }
      { clientId := "elc-0" } [40] [41]
      (by decide) (by decide) (by decide) (by decide) (by decide)).1.mpr (by decide)⟩

/-- C3: when dialing succeeds and the origin prover returns a non-empty
header sequence, and for every header packing, the remote update call
and the commitment parse succeed, `SetupHeadersForUpdate` performs
exactly one remote update call per header in the exact input order, and
returns one destination header per input header in the same order, the
k-th carrying the commitment, signer and signature of the k-th remote
response. -/
theorem C3_header_ordering (env : Env) (pr : Prover) (conn : GrpcConn)
    (headers : List Header) (pk : Header → Bytes) (up : Header → MsgUpdateClientResponse)
    (hdial : env.dial pr.config.lcpServiceAddress = .ok conn)
    (horig : env.originSetupHeadersForUpdate = .ok headers)
    (hne : headers ≠ [])
    (hpk : ∀ h ∈ headers, env.packHeader h = .ok (pk h))
    (hup : ∀ h ∈ headers,
      env.updateClient { clientId := pr.config.elcClientId, header := pk h } = .ok (up h))
    (hparse : ∀ h ∈ headers,
      env.parseUpdateClientCommitment (up h).commitment = .ok ()) :
    setupHeadersForUpdate env pr =
      (.ok (headers.map fun h =>
          { commitment := (up h).commitment, signer := (up h).signer,
            signature := (up h).signature }),
       headers.map fun h =>
         RemoteCall.updateClient { clientId := pr.config.elcClientId, header := pk h },
       { pr with lcpServiceClient := some { conn := conn, codec := pr.codec } }) :=
  setupHeadersForUpdate_ok env pr conn headers pk up hdial horig hne hpk hup hparse

/-- C3 witness: with the concrete environment `demoEnv`, the two origin
headers produce two update calls and two destination headers in order,
embedding commitment bytes 0xAA-prefixed per header. -/
theorem C3_witness :
    setupHeadersForUpdate demoEnv demoProver =
      (.ok [{ commitment := [170, 1], signer := [3], signature := [4] },
            { commitment := [170, 2], signer := [3], signature := [4] }],
       [RemoteCall.updateClient { clientId := "elc-0", header := [1] },
        RemoteCall.updateClient { clientId := "elc-0", header := [2] }],
       { demoProver with lcpServiceClient := some { conn := { target := "addr" }, codec := { id := 0 } } }) :=
  C3_header_ordering demoEnv demoProver { target := "addr" } [[1], [2]]
    (fun h => h) (fun h => { commitment := 170 :: h, signer := [3], signature := [4] })
    (by decide) (by decide) (by decide) (by decide) (by decide) (by decide)

/-- C4: if the remote update call for some header fails, or its returned
commitment fails to parse, while every earlier header succeeded, then
`SetupHeadersForUpdate` returns the error, performs no remote call for
any later header, and returns no destination headers at all. -/
theorem C4_abort_on_failure (env : Env) (pr : Prover) (conn : GrpcConn)
    (pre : List Header) (h : Header) (post : List Header) (e : Err)
    (pk : Header → Bytes) (up : Header → MsgUpdateClientResponse)
    (hdial : env.dial pr.config.lcpServiceAddress = .ok conn)
    (horig : env.originSetupHeadersForUpdate = .ok (pre ++ h :: post))
    (hpkh : env.packHeader h = .ok (pk h))
    (hfail : env.updateClient { clientId := pr.config.elcClientId, header := pk h } = .error e ∨
      ∃ r, env.updateClient { clientId := pr.config.elcClientId, header := pk h } = .ok r ∧
        env.parseUpdateClientCommitment r.commitment = .error e)
    (hpk : ∀ x ∈ pre, env.packHeader x = .ok (pk x))
    (hup : ∀ x ∈ pre,
      env.updateClient { clientId := pr.config.elcClientId, header := pk x } = .ok (up x))
    (hparse : ∀ x ∈ pre,
      env.parseUpdateClientCommitment (up x).commitment = .ok ()) :
    setupHeadersForUpdate env pr =
      (.error e,
       (pre.map fun x =>
           RemoteCall.updateClient { clientId := pr.config.elcClientId, header := pk x }) ++
         [RemoteCall.updateClient { clientId := pr.config.elcClientId, header := pk h }],
       { pr with lcpServiceClient := some { conn := conn, codec := pr.codec } }) :=
  setupHeadersForUpdate_fail env pr conn pre h post e pk up hdial horig hpkh hfail
    hpk hup hparse

/-- C4 witness: with three origin headers and a remote service rejecting
the second one, the whole operation fails, the first destination header
is discarded, and no call is made for the third header. -/
theorem C4_witness :
    setupHeadersForUpdate demoEnvUpdateFail demoProver =
      (.error "update rejected",
       [RemoteCall.updateClient { clientId := "elc-0", header := [1] },
        RemoteCall.updateClient { clientId := "elc-0", header := [2] }],
       { demoProver with lcpServiceClient := some { conn := { target := "addr" }, codec := { id := 0 } } }) :=
  C4_abort_on_failure demoEnvUpdateFail demoProver { target := "addr" }
    [[1]] [2] [[3]] "update rejected"
    (fun h => h) (fun h => { commitment := 170 :: h, signer := [3], signature := [4] })
    (by decide) (by decide) (by decide) (Or.inl (by decide))
    (by decide) (by decide) (by decide)

/-- C5: every delegated query-with-proof operation that performs
delegation and succeeds returns the origin object value unchanged, proof
bytes equal to the serialization of the remote commitment, signer and
signature, and a proof height equal to the height of the parsed state
commitment. -/
theorem C5_delegated_proof_shape :
    (∀ (env : Env) (pr : Prover) (res : QueryClientStateResponse)
        (res2 : MsgVerifyResponse) (sc : StateCommitment),
      env.originQueryClientState = .ok res →
      env.verifyClient (mkMsgVerifyClient pr res) = .ok res2 →
      env.parseStateCommitment res2.commitment = .ok sc →
      (queryClientStateWithProof env pr).1 =
        .ok { clientState := res.clientState,
              proof := env.toRLPBytes res2.commitment res2.signer res2.signature,
              proofHeight := sc.height }) ∧
    (∀ (env : Env) (pr : Prover) (dstClientConsHeight : Height)
        (res : QueryConsensusStateResponse) (res2 : MsgVerifyResponse)
        (sc : StateCommitment),
      env.originQueryClientConsensusState dstClientConsHeight = .ok res →
      env.verifyClientConsensus (mkMsgVerifyClientConsensus pr dstClientConsHeight res) = .ok res2 →
      env.parseStateCommitment res2.commitment = .ok sc →
      (queryClientConsensusStateWithProof env pr dstClientConsHeight).1 =
        .ok { consensusState := res.consensusState,
              proof := env.toRLPBytes res2.commitment res2.signer res2.signature,
              proofHeight := sc.height }) ∧
    (∀ (env : Env) (pr : Prover) (res : QueryConnectionResponse)
        (res2 : MsgVerifyResponse) (sc : StateCommitment),
      env.originQueryConnection = .ok res →
      res.proof.length ≠ 0 →
      env.verifyConnection (mkMsgVerifyConnection pr res) = .ok res2 →
      env.parseStateCommitment res2.commitment = .ok sc →
      (queryConnectionWithProof env pr).1 =
        .ok { connection := res.connection,
              proof := env.toRLPBytes res2.commitment res2.signer res2.signature,
              proofHeight := sc.height }) ∧
    (∀ (env : Env) (pr : Prover) (res : QueryChannelResponse)
        (res2 : MsgVerifyResponse) (sc : StateCommitment),
      env.originQueryChannel = .ok res →
      res.proof.length ≠ 0 →
      env.verifyChannel (mkMsgVerifyChannel pr res) = .ok res2 →
      env.parseStateCommitment res2.commitment = .ok sc →
      (queryChannelWithProof env pr).1 =
        .ok { channel := res.channel,
              proof := env.toRLPBytes res2.commitment res2.signer res2.signature,
              proofHeight := sc.height }) ∧
    (∀ (env : Env) (pr : Prover) (seq : Nat) (res : QueryPacketCommitmentResponse)
        (res2 : MsgVerifyResponse) (sc : StateCommitment),
      env.originQueryPacketCommitment seq = .ok res →
      env.verifyPacket (mkMsgVerifyPacket pr seq res) = .ok res2 →
      env.parseStateCommitment res2.commitment = .ok sc →
      (queryPacketCommitmentWithProof env pr seq).1 =
        .ok { commitment := res.commitment,
              proof := env.toRLPBytes res2.commitment res2.signer res2.signature,
              proofHeight := sc.height }) ∧
    (∀ (env : Env) (pr : Prover) (seq : Nat)
        (res : QueryPacketAcknowledgementResponse) (res2 : MsgVerifyResponse)
        (sc : StateCommitment),
      env.originQueryPacketAcknowledgement seq = .ok res →
      env.verifyPacketAcknowledgement (mkMsgVerifyPacketAcknowledgement pr seq res) = .ok res2 →
      env.parseStateCommitment res2.commitment = .ok sc →
      (queryPacketAcknowledgementCommitmentWithProof env pr seq).1 =
        .ok { acknowledgement := res.acknowledgement,
              proof := env.toRLPBytes res2.commitment res2.signer res2.signature,
              proofHeight := sc.height }) := by
  refine ⟨?_, ?_, ?_, ?_, ?_, ?_⟩
  · intro env pr res res2 sc h1 h2 h3
    rw [queryClientStateWithProof_delegate env pr res res2 sc h1 h2 h3]
  · intro env pr dh res res2 sc h1 h2 h3
    rw [queryClientConsensusStateWithProof_delegate env pr dh res res2 sc h1 h2 h3]
  · intro env pr res res2 sc h1 hne h2 h3
    rw [queryConnectionWithProof_delegate env pr res res2 sc h1 hne h2 h3]
  · intro env pr res res2 sc h1 hne h2 h3
    rw [queryChannelWithProof_delegate env pr res res2 sc h1 hne h2 h3]
  · intro env pr seq res res2 sc h1 h2 h3
    rw [queryPacketCommitmentWithProof_delegate env pr seq res res2 sc h1 h2 h3]
  · intro env pr seq res res2 sc h1 h2 h3
    rw [queryPacketAcknowledgementCommitmentWithProof_delegate env pr seq res res2 sc h1 h2 h3]

/-- C5 witness: the client-state and connection conjuncts applied to the
concrete all-succeeding environment. -/
theorem C5_witness :
    (queryClientStateWithProof demoEnv demoProver).1 =
      .ok { clientState := [20], proof := [30, 31, 32],
            proofHeight := { revisionNumber := 1, revisionHeight := 9 } } ∧
    (queryConnectionWithProof demoEnv demoProver).1 =
      .ok { connection := [22], proof := [30, 31, 32],
            proofHeight := { revisionNumber := 1, revisionHeight := 9 } } :=
  ⟨C5_delegated_proof_shape.1 demoEnv demoProver
      { clientState := [20], proof := [7], proofHeight := { revisionNumber := 0, revisionHeight := 5 } }
      { commitment := [30], signer := [31], signature := [32] }
      { height := { revisionNumber := 1, revisionHeight := 9 } }
      (by decide) (by decide) (by decide),
   C5_delegated_proof_shape.2.2.1 demoEnv demoProver
      { connection := [22], proof := [7], proofHeight := { revisionNumber := 0, revisionHeight := 5 } }
      { commitment := [30], signer := [31], signature := [32] }
      { height := { revisionNumber := 1, revisionHeight := 9 } }
      (by decide) (by decide) (by decide) (by decide)⟩

/-- C6: when dialing succeeds and the origin prover returns an empty
header sequence, `SetupHeadersForUpdate` returns an empty result with no
error and performs zero remote calls. -/
theorem C6_empty_header_skip (env : Env) (pr : Prover) (conn : GrpcConn)
    (hdial : env.dial pr.config.lcpServiceAddress = .ok conn)
    (horig : env.originSetupHeadersForUpdate = .ok []) :
    setupHeadersForUpdate env pr =
      (.ok [], [],
       { pr with lcpServiceClient := some { conn := conn, codec := pr.codec } }) :=
  setupHeadersForUpdate_empty env pr conn hdial horig

/-- C6 witness: the empty-header skip at a concrete environment. -/
theorem C6_witness :
    setupHeadersForUpdate demoEnvNoHeaders demoProver =
      (.ok [], [],
       { demoProver with lcpServiceClient := some { conn := { target := "addr" }, codec := { id := 0 } } }) :=
  C6_empty_header_skip demoEnvNoHeaders demoProver { target := "addr" }
    (by decide) (by decide)

/-- C7: on every successful run, `CreateMsgCreateClient` builds the
destination-chain client state with zero initial height, the configured
enclave measurement, a key-expiration constant of 604800 seconds
(7 days), empty key and attestation-time lists, and the configured
allowed-quote-status and allowed-advisory-id lists, packed together with
the empty consensus state. -/
theorem C7_new_client_state_shape :
    ∀ (env : Env) (pr : Prover) (clientID : String) (dstHeader : Header)
      (signer : Signer) (conn : GrpcConn) (msg : MsgCreateClient)
      (res : MsgCreateClientResponse) (acs acons : Bytes),
      env.dial pr.config.lcpServiceAddress = .ok conn →
      env.originCreateMsgCreateClient clientID dstHeader signer = .ok msg →
      env.createClient { clientState := msg.clientState, consensusState := msg.consensusState, signer := "" } = .ok res →
      pr.config.elcClientId = res.clientId →
      env.packClientState (newLCPClientState pr.config) = .ok acs →
      env.packConsensusState LCPConsensusState.mk = .ok acons →
      (createMsgCreateClient env pr clientID dstHeader signer).1 =
        .ok { clientState := acs, consensusState := acons, signer := signer } ∧
      newLCPClientState pr.config =
        { latestHeight := { revisionNumber := 0, revisionHeight := 0 },
          mrenclave := pr.config.getMrenclave,
          keyExpiration := 604800,
          keys := [],
          attestationTimes := [],
          allowedQuoteStatuses := pr.config.allowedQuoteStatuses,
          allowedAdvisoryIds := pr.config.allowedAdvisoryIds } := by
  intro env pr clientID dstHeader signer conn msg res acs acons hdial horig hcc heq hpc hpcons
  constructor
  · rw [createMsgCreateClient_ok env pr clientID dstHeader signer conn msg res
      acs acons hdial horig hcc heq hpc hpcons]
  · rfl

/-- C7 witness: the client-state shape theorem at a concrete
environment and configuration. -/
theorem C7_witness :
    (createMsgCreateClient demoEnv demoProver "c" [0] "bob").1 =
      .ok { clientState := [40], consensusState := [41], signer := "bob" } ∧
    newLCPClientState demoConfig =
      { latestHeight := { revisionNumber := 0, revisionHeight := 0 },
        mrenclave := [1, 2],
        keyExpiration := 604800,
        keys := [],
        attestationTimes := [],
        allowedQuoteStatuses := ["GROUP_OUT_OF_DATE"],
        allowedAdvisoryIds := [] } :=
  ⟨(C7_new_client_state_shape demoEnv demoProver "c" [0] "bob" { target := "addr" }
      { clientState := [10], consensusState := [11], signer := "bob" }
      { clientId := "elc-0" } [40] [41]
      (by decide) (by decide) (by decide) (by decide) (by decide) (by decide)).1,
   by decide⟩

/-- C8: `CreateMsgCreateClient`, `SetupHeadersForUpdate` and
`SetupForRelay` each run the service-client initializer first: if the
dial fails they return the transport error with no remote call and the
session unchanged, and in every case the session state they leave behind
is exactly the state left by the initializer. -/
theorem C8_init_before_phases :
    ∀ (env : Env) (pr : Prover) (clientID : String) (dstHeader : Header)
      (signer : Signer),
      (∀ e : Err, env.dial pr.config.lcpServiceAddress = .error e →
        createMsgCreateClient env pr clientID dstHeader signer = (.error e, [], pr) ∧
        setupHeadersForUpdate env pr = (.error e, [], pr) ∧
        setupForRelay env pr = (.error e, pr)) ∧
      ((createMsgCreateClient env pr clientID dstHeader signer).2.2 =
          (initServiceClient env pr).2 ∧
        (setupHeadersForUpdate env pr).2.2 = (initServiceClient env pr).2 ∧
        (setupForRelay env pr).2 = (initServiceClient env pr).2) :=
  fun env pr clientID dstHeader signer =>
    ⟨fun e he =>
      ⟨createMsgCreateClient_dialFail env pr clientID dstHeader signer e he,
       setupHeadersForUpdate_dialFail env pr e he,
       setupForRelay_dialFail env pr e he⟩,
     createMsgCreateClient_state env pr clientID dstHeader signer,
     setupHeadersForUpdate_state env pr,
     setupForRelay_state env pr⟩

/-- C8 witness: with a failing dialer, all three phases return the
transport error, make no remote call, and leave the session unchanged. -/
theorem C8_witness :
    createMsgCreateClient demoEnvDialFail demoProver "c" [0] "s" =
      (.error "connection refused", [], demoProver) ∧
    setupHeadersForUpdate demoEnvDialFail demoProver =
      (.error "connection refused", [], demoProver) ∧
    setupForRelay demoEnvDialFail demoProver = (.error "connection refused", demoProver) :=
  (C8_init_before_phases demoEnvDialFail demoProver "c" [0] "s").1
    "connection refused" (by decide)

/-- C9: every remote call recorded by any of the six delegated
query-with-proof operations carries the session's configured bound
client identifier and the IBC host store-key prefix. -/
theorem C9_request_invariants :
    ∀ (env : Env) (pr : Prover) (dstClientConsHeight : Height) (seq : Nat),
      (∀ c ∈ (queryClientStateWithProof env pr).2.1, goodCall pr c) ∧
      (∀ c ∈ (queryClientConsensusStateWithProof env pr dstClientConsHeight).2.1,
        goodCall pr c) ∧
      (∀ c ∈ (queryConnectionWithProof env pr).2.1, goodCall pr c) ∧
      (∀ c ∈ (queryChannelWithProof env pr).2.1, goodCall pr c) ∧
      (∀ c ∈ (queryPacketCommitmentWithProof env pr seq).2.1, goodCall pr c) ∧
      (∀ c ∈ (queryPacketAcknowledgementCommitmentWithProof env pr seq).2.1,
        goodCall pr c) :=
  fun env pr dstClientConsHeight seq =>
    ⟨queryClientStateWithProof_calls env pr,
     queryClientConsensusStateWithProof_calls env pr dstClientConsHeight,
     queryConnectionWithProof_calls env pr,
     queryChannelWithProof_calls env pr,
     queryPacketCommitmentWithProof_calls env pr seq,
     queryPacketAcknowledgementCommitmentWithProof_calls env pr seq⟩

/-- C9 witness: the invariant evaluated on the concrete call recorded by
the client-state query under `demoEnv`. -/
theorem C9_witness :
    goodCall demoProver
      (RemoteCall.verifyClient (mkMsgVerifyClient demoProver
        { clientState := [20], proof := [7], proofHeight := { revisionNumber := 0, revisionHeight := 5 } })) :=
  (C9_request_invariants demoEnv demoProver { revisionNumber := 0, revisionHeight := 0 } 1).1
    (RemoteCall.verifyClient (mkMsgVerifyClient demoProver
      { clientState := [20], proof := [7], proofHeight := { revisionNumber := 0, revisionHeight := 5 } }))
    (by decide)

/-- C10: none of the six delegated query-with-proof operations modifies
any field of the prover session: the session state after any such call
equals the state before it. -/
theorem C10_queries_preserve_session :
    ∀ (env : Env) (pr : Prover) (dstClientConsHeight : Height) (seq : Nat),
      (queryClientStateWithProof env pr).2.2 = pr ∧
      (queryClientConsensusStateWithProof env pr dstClientConsHeight).2.2 = pr ∧
      (queryConnectionWithProof env pr).2.2 = pr ∧
      (queryChannelWithProof env pr).2.2 = pr ∧
      (queryPacketCommitmentWithProof env pr seq).2.2 = pr ∧
      (queryPacketAcknowledgementCommitmentWithProof env pr seq).2.2 = pr :=
  fun env pr dstClientConsHeight seq =>
    ⟨queryClientStateWithProof_state env pr,
     queryClientConsensusStateWithProof_state env pr dstClientConsHeight,
     queryConnectionWithProof_state env pr,
     queryChannelWithProof_state env pr,
     queryPacketCommitmentWithProof_state env pr seq,
     queryPacketAcknowledgementCommitmentWithProof_state env pr seq⟩

end LCPRelay
